import Mathlib

/-!
Verification of the PDF Master command-line tool (Pdf_merger.py).

The program is a menu-driven tool that merges PDFs, converts a blog URL to a
PDF, and converts images and office documents to PDF.  All format work is done
by external libraries and subprocesses; the embedding below models those
collaborators as abstract oracles (record fields of function type) and
translates the program's own control flow - filename validation, interactive
collection, output-name handling, per-item error counting, final write and
resource cleanup - into pure Lean functions.  Terminal input is modelled as a
list of lines; the file system and the wrapped libraries are modelled as
abstract predicates on names; results record the observable outcome of a
driver run (which files exist afterwards, what was reported, which resources
were released).
-/

set_option linter.unusedVariables false

/-- Python str.lower applied characterwise via Char.toLower; this agrees with
CPython on the ASCII names and commands the program manipulates. -/
def pyLower (s : String) : String := ⟨s.data.map Char.toLower⟩

/-- Python str.strip: remove whitespace from both ends of a line. -/
def pyStrip (s : String) : String :=
  ⟨((s.data.dropWhile Char.isWhitespace).reverse.dropWhile Char.isWhitespace).reverse⟩

/-- Python str.endswith for a single suffix string. -/
def pyEndsWith (s suf : String) : Bool := decide (suf.data <:+ s.data)

/-- Python str.endswith applied to a tuple of suffixes: any one may match. -/
def pyEndsWithAny (s : String) (sufs : List String) : Bool :=
  sufs.any (fun e => pyEndsWith s e)

/-- One past the index of the last occurrence of the character c in l, and 0
when c does not occur: the value Python computes as rfind(c) + 1. -/
def rfindCharSucc (c : Char) : List Char → Nat
  | [] => 0
  | a :: rest =>
    let r := rfindCharSucc c rest
    if r > 0 then r + 1 else if a == c then 1 else 0

/-- Python rstrip restricted to the path separator: drop trailing slashes. -/
def rstripSlash (l : List Char) : List Char :=
  (l.reverse.dropWhile (fun c => c == '/')).reverse

/-- posixpath.dirname: everything before the final slash; trailing slashes of
that head are stripped unless the head consists only of slashes.  The program
runs its path checks through os.path.dirname, modelled here for posix. -/
def os_path_dirname (p : String) : String :=
  let l := p.data
  let i := rfindCharSucc '/' l
  let head := l.take i
  if head ≠ [] ∧ ¬ (head.all (fun c => c == '/')) then ⟨rstripSlash head⟩ else ⟨head⟩

/-- posixpath.basename: everything after the final slash. -/
def os_path_basename (p : String) : String :=
  ⟨p.data.drop (rfindCharSucc '/' p.data)⟩

/-- Root part of os.path.splitext for a name with no slash (the program only
applies it to a basename): the text before the final dot, unless every
character before that dot is itself a dot, in which case nothing is split. -/
def splitext_root (p : String) : String :=
  let l := p.data
  let d := rfindCharSucc '.' l
  if d > 0 ∧ ¬ ((l.take (d - 1)).all (fun c => c == '.')) then ⟨l.take (d - 1)⟩ else p

/-- Failure modes of the filename validators, matching the error taxonomy of
the spec: a path component present (ValueError asking for a filename only), a
missing file (FileNotFoundError), a suffix outside the accepted set
(ValueError about the file type), and a file the wrapped library cannot parse
(PdfReader or Image.verify raising). -/
inductive ValidationError where
  | PathNotAllowed
  | NotFound
  | UnsupportedExtension
  | Corrupt
deriving DecidableEq, Repr

/-- Abstract view of the current working directory and of the wrapped
libraries: which names denote existing files, which open cleanly as PDFs
under PdfReader, and which verify as images under Image.open + verify. -/
structure FS where
  fileExists : String → Bool
  pdfReadOk : String → Bool
  imageVerifyOk : String → Bool

/-- Translation of validate_pdf_file: reject a path component, then a missing
file, then a non-.pdf suffix (case-insensitive), then a file PdfReader cannot
parse; in that order. -/
def validate_pdf_file (fs : FS) (filename : String) : Except ValidationError Unit :=
  if os_path_dirname filename ≠ "" then .error .PathNotAllowed
  else if fs.fileExists filename = false then .error .NotFound
  else if pyEndsWith (pyLower filename) ".pdf" = false then .error .UnsupportedExtension
  else if fs.pdfReadOk filename = false then .error .Corrupt
  else .ok ()

/-- Accepted image suffixes of validate_image_file. -/
def imageValidExtensions : List String := [".jpg", ".jpeg", ".png", ".webp", ".bmp"]

/-- Translation of validate_image_file: reject a path component, then a
missing file, then a suffix outside the accepted image set, then an image
that Image.open + verify rejects; in that order. -/
def validate_image_file (fs : FS) (filename : String) : Except ValidationError Unit :=
  if os_path_dirname filename ≠ "" then .error .PathNotAllowed
  else if fs.fileExists filename = false then .error .NotFound
  else if pyEndsWithAny (pyLower filename) imageValidExtensions = false then
    .error .UnsupportedExtension
  else if fs.imageVerifyOk filename = false then .error .Corrupt
  else .ok ()

/-- Translation of validate_office_file: reject a path component, then a
missing file, then a suffix outside the given accepted set; office files get
no structural parse. -/
def validate_office_file (fs : FS) (filename : String) (extensions : List String)
    (file_type : String) : Except ValidationError Unit :=
  if os_path_dirname filename ≠ "" then .error .PathNotAllowed
  else if fs.fileExists filename = false then .error .NotFound
  else if pyEndsWithAny (pyLower filename) extensions = false then
    .error .UnsupportedExtension
  else .ok ()

/-- True exactly when a validation succeeded. -/
def exceptOk : Except ValidationError Unit → Bool
  | .ok _ => true
  | .error _ => false

/-- Shared shape of get_file_names, get_image_files and get_office_files:
read a line, strip it, stop at the sentinel letter q (any case) returning the
accumulated list, otherwise validate the line and either append it or report
the failure and continue.  The remaining terminal input is the list argument;
none models input exhausted before any sentinel was seen (in the real program
the loop would block on input instead). -/
def collect_loop (validate : String → Except ValidationError Unit) :
    List String → Option (List String)
  | [] => none
  | line :: rest =>
    let file_name := pyStrip line
    if pyLower file_name = "q" then some []
    else
      match validate file_name with
      | .ok _ => (collect_loop validate rest).map (fun l => file_name :: l)
      | .error _ => collect_loop validate rest

/-- Translation of get_file_names, the PDF collector. -/
def get_file_names (fs : FS) : List String → Option (List String) :=
  collect_loop (validate_pdf_file fs)

/-- Translation of get_image_files, the image collector. -/
def get_image_files (fs : FS) : List String → Option (List String) :=
  collect_loop (validate_image_file fs)

/-- Translation of get_office_files, the office collector, generic over the
accepted suffix set and the file-type label. -/
def get_office_files (fs : FS) (extensions : List String) (file_type : String) :
    List String → Option (List String) :=
  collect_loop (fun f => validate_office_file fs f extensions file_type)

/-- Suffixing step of get_output_filename: append .pdf when the name does not
already end in .pdf case-insensitively. -/
def ensure_pdf_suffixed (n : String) : String :=
  if pyEndsWith (pyLower n) ".pdf" then n else n ++ ".pdf"

/-- Translation of get_output_filename: strip the entered line, substitute
the default on an empty entry, append .pdf when missing, then reject names
with a path component by re-prompting; the accepted name is returned.  The
list argument is the remaining terminal input, none models exhaustion. -/
def get_output_filename (default_name : String) : List String → Option String
  | [] => none
  | line :: rest =>
    let name0 := pyStrip line
    let name1 := if name0 = "" then default_name else name0
    let name2 := ensure_pdf_suffixed name1
    if os_path_dirname name2 ≠ "" then get_output_filename default_name rest
    else some name2

/-- Entered name of one iteration of get_output_filename: the stripped input
line, or the default name when the stripped line is empty. -/
def entered_output_name (default_name line : String) : String :=
  if pyStrip line = "" then default_name else pyStrip line

/-- Outcome of the final write of a merged document to the output name: the
open and the write both succeed; the open itself raises so no file is created
or changed; or the write raises after the open already created and truncated
the output file, leaving an incomplete file on disk. -/
inductive WriteOutcome where
  | ok
  | openFail
  | writeFail
deriving DecidableEq, Repr

/-- Abstract view of the PDF library for merge_pdfs: appending a file either
contributes that file's pages (numbered abstractly) or raises, and the final
write has one of the three outcomes. -/
structure PdfFS where
  appendPdf : String → Option (List Nat)
  writeOutcome : WriteOutcome

/-- Append loop of merge_pdfs: pages accumulated into the merger in input
order, together with the error count; a failed append is counted and the
remaining files are still processed. -/
def merge_loop (fs : PdfFS) : List String → List Nat × Nat
  | [] => ([], 0)
  | file_path :: rest =>
    match fs.appendPdf file_path with
    | some pages =>
      let r := merge_loop fs rest
      (pages ++ r.1, r.2)
    | none =>
      let r := merge_loop fs rest
      (r.1, r.2 + 1)

/-- Observable outcome of a merge_pdfs run: whether a file exists at the
output name afterwards, the pages of a completely written output, the two
counters, whether the success line with the stats was printed, whether the
critical-error line was printed, and whether the merger was closed. -/
structure MergeResult where
  outputExists : Bool
  outputPages : List Nat
  succeeded : Nat
  failed : Nat
  reported : Bool
  criticalError : Bool
  mergerClosed : Bool
deriving DecidableEq, Repr

/-- Translation of merge_pdfs.  preOut says whether a file already existed at
the output name before the run.  On a successful write the stats line reports
length minus errors succeeded and errors failed.  On a failed write the
critical-error line is printed and nothing else happens: the function has no
removal call, so the file created by the open remains (outputPages is left
empty there because the written content is incomplete).  The finally block
closes the merger on every path. -/
def merge_pdfs (fs : PdfFS) (file_paths : List String) (preOut : Bool) : MergeResult :=
  let r := merge_loop fs file_paths
  match fs.writeOutcome with
  | .ok =>
    { outputExists := true, outputPages := r.1,
      succeeded := file_paths.length - r.2, failed := r.2,
      reported := true, criticalError := false, mergerClosed := true }
  | .openFail =>
    { outputExists := preOut, outputPages := [],
      succeeded := file_paths.length - r.2, failed := r.2,
      reported := false, criticalError := true, mergerClosed := true }
  | .writeFail =>
    { outputExists := true, outputPages := [],
      succeeded := file_paths.length - r.2, failed := r.2,
      reported := false, criticalError := true, mergerClosed := true }

/-- Stage at which a convert_blog run stops: the fetch raises, the status
check raises on a non-2xx response, the readability extraction raises, the
renderer raises (fileStarted says whether it already created the output
file), or every stage succeeds. -/
inductive BlogStage where
  | fetchError
  | badStatus
  | extractError
  | renderError (fileStarted : Bool)
  | success
deriving DecidableEq, Repr

/-- Observable outcome of a convert_blog run. -/
structure BlogResult where
  outputExists : Bool
  reportedSuccess : Bool
  reportedError : Bool
deriving DecidableEq, Repr

/-- Translation of convert_blog.  preOut says whether a file already existed
at the output name.  On success the renderer wrote the output and the title
line is printed.  On any exception the handler prints the failure and then
removes the output file when one exists at that moment - whether left over
from before the run or created by the failed render. -/
def convert_blog (preOut : Bool) (stage : BlogStage) : BlogResult :=
  match stage with
  | .success =>
    { outputExists := true, reportedSuccess := true, reportedError := false }
  | .renderError fileStarted =>
    let existsAtHandler := preOut || fileStarted
    { outputExists := if existsAtHandler then false else existsAtHandler,
      reportedSuccess := false, reportedError := true }
  | _ =>
    { outputExists := if preOut then false else preOut,
      reportedSuccess := false, reportedError := true }

/-- Abstract view of the image library for convert_images_to_pdf: opening a
path either yields an image whose color mode is the given string or raises,
and the multi-page save either succeeds or raises. -/
structure ImageFS where
  openMode : String → Option String
  saveOk : Bool

/-- PIL color modes that carry an alpha channel, per the PIL documentation of
image modes. -/
def pilAlphaModes : List String := ["RGBA", "LA", "PA", "RGBa", "La"]

/-- Membership in the alpha-carrying PIL modes. -/
def hasAlphaMode (m : String) : Bool := pilAlphaModes.contains m

/-- Mode of an opened image after the driver's conversion step: exactly the
RGBA mode is converted, to RGB; every other mode is kept as it is. -/
def image_mode_after_processing (m : String) : String :=
  if m = "RGBA" then "RGB" else m

/-- Observable outcome of a convert_images_to_pdf run: the color modes of the
images handed to the save call in order (empty when the run aborted before
saving), whether the output exists afterwards, whether the no-images warning
or the failure line was printed, and whether the handles were closed. -/
structure ImagesResult where
  savedModes : List String
  outputExists : Bool
  warnedNoImages : Bool
  reportedError : Bool
  handlesClosed : Bool
deriving DecidableEq, Repr

/-- Translation of convert_images_to_pdf.  Each path that opens contributes
its processed mode; paths that fail to open are reported and skipped.  With
no surviving image the driver warns and returns.  Otherwise the first image
saves the batch; on a raise during the save the partially written output is
removed.  The finally block closes the collected handles on every path. -/
def convert_images_to_pdf (fs : ImageFS) (image_paths : List String) (preOut : Bool) :
    ImagesResult :=
  let images := image_paths.filterMap (fun p => (fs.openMode p).map image_mode_after_processing)
  if images.isEmpty then
    { savedModes := [], outputExists := preOut, warnedNoImages := true,
      reportedError := false, handlesClosed := true }
  else if fs.saveOk then
    { savedModes := images, outputExists := true, warnedNoImages := false,
      reportedError := false, handlesClosed := true }
  else
    { savedModes := images, outputExists := false, warnedNoImages := false,
      reportedError := true, handlesClosed := true }

/-- Abstract view of the collaborators of the office driver: whether the
libreoffice subprocess exits 0 for an input, which generated paths hold a PDF
afterwards, what appending a generated PDF contributes, and the outcome of
the final write. -/
structure OfficeFS where
  subprocessOk : String → Bool
  generatedPdfAt : String → Bool
  appendPdf : String → Option (List Nat)
  writeOutcome : WriteOutcome

/-- Translation of convert_office_to_pdf: run the subprocess with check set,
so a non-zero exit raises and the handler returns no path; otherwise the
expected output is the basename with its suffix replaced by .pdf inside the
temporary directory, returned when present and reported as a failed
conversion when absent. -/
def convert_office_to_pdf (fs : OfficeFS) (input_path : String) (temp_dir : String) :
    Option String :=
  if fs.subprocessOk input_path then
    let base_name := splitext_root (os_path_basename input_path) ++ ".pdf"
    let generated_pdf := temp_dir ++ "/" ++ base_name
    if fs.generatedPdfAt generated_pdf then some generated_pdf else none
  else none

/-- Conversion loop of handle_office_conversion: each input is converted and
its generated PDF appended; a failed conversion or a failed append is counted
and the remaining inputs are still processed. -/
def office_loop (fs : OfficeFS) (temp_dir : String) : List String → List Nat × Nat
  | [] => ([], 0)
  | file_path :: rest =>
    match convert_office_to_pdf fs file_path temp_dir with
    | some temp_pdf =>
      match fs.appendPdf temp_pdf with
      | some pages =>
        let r := office_loop fs temp_dir rest
        (pages ++ r.1, r.2)
      | none =>
        let r := office_loop fs temp_dir rest
        (r.1, r.2 + 1)
    | none =>
      let r := office_loop fs temp_dir rest
      (r.1, r.2 + 1)

/-- Observable outcome of a handle_office_conversion run.  tempDirCleaned and
mergerClosed record whether the explicit cleanup and close calls of the
function ran; the zero-pages abort returns before the block that contains
them, and implicit reclamation by the garbage collector is not part of the
program's control flow and is not modelled. -/
structure OfficeResult where
  tempDirCreated : Bool
  tempDirCleaned : Bool
  mergerClosed : Bool
  outputExists : Bool
  succeeded : Nat
  failed : Nat
  reported : Bool
  criticalError : Bool
  abortedNoPages : Bool
  abortedNoFiles : Bool
deriving DecidableEq, Repr

/-- Translation of handle_office_conversion for an already collected input
list.  With no inputs the driver returns before creating the merger and the
temporary directory.  Otherwise it converts and appends every input; when no
page was collected it warns and returns - a path on which neither the
temporary-directory cleanup nor the merger close runs.  Otherwise the merged
result is written as in merge_pdfs, and the finally block cleans the
temporary directory and closes the merger on those paths. -/
def handle_office_conversion (fs : OfficeFS) (files : List String) (temp_dir : String)
    (preOut : Bool) : OfficeResult :=
  if files.isEmpty then
    { tempDirCreated := false, tempDirCleaned := false, mergerClosed := false,
      outputExists := preOut, succeeded := 0, failed := 0, reported := false,
      criticalError := false, abortedNoPages := false, abortedNoFiles := true }
  else
    let r := office_loop fs temp_dir files
    if r.1.length = 0 then
      { tempDirCreated := true, tempDirCleaned := false, mergerClosed := false,
        outputExists := preOut, succeeded := files.length - r.2, failed := r.2,
        reported := false, criticalError := false, abortedNoPages := true,
        abortedNoFiles := false }
    else
      match fs.writeOutcome with
      | .ok =>
        { tempDirCreated := true, tempDirCleaned := true, mergerClosed := true,
          outputExists := true, succeeded := files.length - r.2, failed := r.2,
          reported := true, criticalError := false, abortedNoPages := false,
          abortedNoFiles := false }
      | .openFail =>
        { tempDirCreated := true, tempDirCleaned := true, mergerClosed := true,
          outputExists := preOut, succeeded := files.length - r.2, failed := r.2,
          reported := false, criticalError := true, abortedNoPages := false,
          abortedNoFiles := false }
      | .writeFail =>
        { tempDirCreated := true, tempDirCleaned := true, mergerClosed := true,
          outputExists := true, succeeded := files.length - r.2, failed := r.2,
          reported := false, criticalError := true, abortedNoPages := false,
          abortedNoFiles := false }

/-- Working directory with no files at all. -/
def fsNone : FS :=
  { fileExists := fun _ => false, pdfReadOk := fun _ => false,
    imageVerifyOk := fun _ => false }

/-- Working directory in which every name exists and parses. -/
def fsAll : FS :=
  { fileExists := fun _ => true, pdfReadOk := fun _ => true,
    imageVerifyOk := fun _ => true }

/-- Merge oracle: every append succeeds with one page, the final write raises
after the open created the file. -/
def fsMergeWriteFail : PdfFS :=
  { appendPdf := fun _ => some [0], writeOutcome := .writeFail }

/-- Merge oracle for the two-file example: a.pdf appends its two pages, every
other file raises on append; the final write succeeds. -/
def fsMergeOneCorrupt : PdfFS :=
  { appendPdf := fun p => if p == "a.pdf" then some [10, 11] else none,
    writeOutcome := .ok }

/-- Image oracle: every path opens as an image in the LA mode, the save
succeeds. -/
def fsImageLA : ImageFS := { openMode := fun _ => some "LA", saveOk := true }

/-- Image oracle: every path opens as an image in the RGBA mode, the save
succeeds. -/
def fsImageRGBA : ImageFS := { openMode := fun _ => some "RGBA", saveOk := true }

/-- Office oracle on which every conversion fails: the subprocess exits
non-zero for every input. -/
def fsOfficeAllFail : OfficeFS :=
  { subprocessOk := fun _ => false, generatedPdfAt := fun _ => false,
    appendPdf := fun _ => none, writeOutcome := .ok }

/-- Office oracle for the three-file example: the subprocess fails exactly
for b.docx, every generated PDF exists and appends one page, the final write
succeeds. -/
def fsOfficeOneFail : OfficeFS :=
  { subprocessOk := fun p => !(p == "b.docx"), generatedPdfAt := fun _ => true,
    appendPdf := fun _ => some [0], writeOutcome := .ok }

example : os_path_dirname "a/b.pdf" = "a" := by decide
example : os_path_dirname "b.pdf" = "" := by decide
example : os_path_dirname "/b.pdf" = "/" := by decide
example : splitext_root "a.docx" = "a" := by decide
example : pyLower "Quit" = "quit" := by decide
example : pyStrip "  x " = "x" := by decide
example : ensure_pdf_suffixed "x" = "x.pdf" := by decide
example : ensure_pdf_suffixed "x.PDF" = "x.PDF" := by decide

theorem rfindCharSucc_eq_zero {c : Char} {l : List Char} (h : c ∉ l) :
    rfindCharSucc c l = 0 := by
  induction l with
  | nil => rfl
  | cons a rest ih =>
    rw [List.mem_cons, not_or] at h
    have h1 : ¬ a = c := fun e => h.1 e.symm
    simp [rfindCharSucc, ih h.2, h1]

theorem rfindCharSucc_pos {c : Char} {l : List Char} (h : c ∈ l) :
    0 < rfindCharSucc c l := by
  induction l with
  | nil => cases h
  | cons a rest ih =>
    cases List.mem_cons.mp h with
    | inl he =>
      by_cases hr : rfindCharSucc c rest > 0
      · simp [rfindCharSucc, hr]
      · simp [rfindCharSucc, hr, he.symm]
    | inr hm =>
      have hp := ih hm
      simp [rfindCharSucc, hp]

theorem mk_ne_empty_of_ne_nil {l : List Char} (h : l ≠ []) : String.mk l ≠ "" := by
  intro e
  exact h (by simpa using congrArg String.data e)

theorem rstripSlash_ne_nil {l : List Char} (h : ¬ (l.all (fun c => c == '/') = true)) :
    rstripSlash l ≠ [] := by
  intro e
  apply h
  unfold rstripSlash at e
  have e2 : l.reverse.dropWhile (fun c => c == '/') = [] := by
    simpa using congrArg List.reverse e
  have hall := List.dropWhile_eq_nil_iff.mp e2
  rw [List.all_eq_true]
  intro x hx
  exact hall x (List.mem_reverse.mpr hx)

theorem os_path_dirname_of_no_sep {p : String} (h : '/' ∉ p.data) :
    os_path_dirname p = "" := by
  simp [os_path_dirname, rfindCharSucc_eq_zero h]

theorem os_path_dirname_ne_empty {p : String} (h : '/' ∈ p.data) :
    os_path_dirname p ≠ "" := by
  unfold os_path_dirname
  have hpos := rfindCharSucc_pos h
  have hnil : p.data ≠ [] := by
    intro e
    rw [e] at h
    cases h
  have hhead : p.data.take (rfindCharSucc '/' p.data) ≠ [] := by
    intro e
    rcases List.take_eq_nil_iff.mp e with h0 | h0
    · omega
    · exact hnil h0
  by_cases hall : (p.data.take (rfindCharSucc '/' p.data)).all (fun c => c == '/') = true
  · simp only [hall]
    simp [hhead, mk_ne_empty_of_ne_nil hhead]
  · simp only []
    rw [if_pos ⟨hhead, hall⟩]
    exact mk_ne_empty_of_ne_nil (rstripSlash_ne_nil hall)

theorem pyLower_append (a b : String) : pyLower (a ++ b) = pyLower a ++ pyLower b := by
  apply String.ext
  simp [pyLower, String.data_append]

theorem pyEndsWith_append_self (a b : String) : pyEndsWith (a ++ b) b = true := by
  simp [pyEndsWith, String.data_append]

theorem ensure_pdf_suffixed_endsWith (n : String) :
    pyEndsWith (pyLower (ensure_pdf_suffixed n)) ".pdf" = true := by
  unfold ensure_pdf_suffixed
  by_cases h : pyEndsWith (pyLower n) ".pdf" = true
  · simp [h]
  · rw [if_neg (by simpa using h)]
    rw [pyLower_append]
    have hp : pyLower ".pdf" = ".pdf" := rfl
    rw [hp]
    exact pyEndsWith_append_self (pyLower n) ".pdf"

theorem ensure_pdf_suffixed_idem (n : String) :
    ensure_pdf_suffixed (ensure_pdf_suffixed n) = ensure_pdf_suffixed n := by
  conv_lhs => rw [ensure_pdf_suffixed]
  simp [ensure_pdf_suffixed_endsWith n]

theorem collect_loop_isSome (v : String → Except ValidationError Unit) (lines : List String) :
    (collect_loop v lines).isSome = true ↔ ∃ l ∈ lines, pyLower (pyStrip l) = "q" := by
  induction lines with
  | nil => simp [collect_loop]
  | cons line rest ih =>
    by_cases hq : pyLower (pyStrip line) = "q"
    · simp [collect_loop, hq]
    · cases hv : v (pyStrip line) with
      | ok u => simp [collect_loop, hq, hv, ih]
      | error e => simp [collect_loop, hq, hv, ih]

theorem collect_loop_some_eq (v : String → Except ValidationError Unit)
    (lines : List String) (res : List String) (h : collect_loop v lines = some res) :
    res = ((lines.takeWhile (fun l => !(pyLower (pyStrip l) == "q"))).map pyStrip).filter
            (fun f => exceptOk (v f)) := by
  induction lines generalizing res with
  | nil => simp [collect_loop] at h
  | cons line rest ih =>
    by_cases hq : pyLower (pyStrip line) = "q"
    · simp [collect_loop, hq] at h
      subst h
      simp [List.takeWhile_cons, hq]
    · cases hv : v (pyStrip line) with
      | ok u =>
        simp [collect_loop, hq, hv] at h
        obtain ⟨a, ha, he⟩ := h
        simp [List.takeWhile_cons, hq, List.filter_cons, hv, exceptOk, ← he, ih a ha]
      | error e =>
        simp [collect_loop, hq, hv] at h
        simp [List.takeWhile_cons, hq, List.filter_cons, hv, exceptOk, ih res h]

theorem collect_loop_no_q (v : String → Except ValidationError Unit)
    (lines : List String) (res : List String) (h : collect_loop v lines = some res) :
    ∀ e ∈ res, ¬ pyLower e = "q" := by
  induction lines generalizing res with
  | nil => simp [collect_loop] at h
  | cons line rest ih =>
    by_cases hq : pyLower (pyStrip line) = "q"
    · simp [collect_loop, hq] at h
      subst h
      simp
    · cases hv : v (pyStrip line) with
      | ok u =>
        simp [collect_loop, hq, hv] at h
        obtain ⟨a, ha, he⟩ := h
        intro e hme
        rw [← he] at hme
        rcases List.mem_cons.mp hme with hh | hh
        · rw [hh]
          exact hq
        · exact ih a ha e hh
      | error e =>
        simp [collect_loop, hq, hv] at h
        exact ih res h

theorem merge_loop_eq (fs : PdfFS) (l : List String) :
    merge_loop fs l = ((l.filterMap fs.appendPdf).flatten,
      (l.filter (fun p => (fs.appendPdf p).isNone)).length) := by
  induction l with
  | nil => rfl
  | cons fp rest ih =>
    cases hv : fs.appendPdf fp with
    | some pages => simp [merge_loop, hv, ih, List.filterMap_cons, List.filter_cons]
    | none => simp [merge_loop, hv, ih, List.filterMap_cons, List.filter_cons]

/-- Claim C5: for every category of the filename validator (PDF, image, and
any office category) and every candidate with no directory separator whose
suffix lies in the accepted set of its category but which names no existing
file, validation fails with the NotFound error and never with the
UnsupportedExtension error: the existence check precedes the suffix check in
all three validators. -/
theorem C5_missing_file_fails_notfound (fs : FS) (cp ci co : String)
    (exts : List String) (ft : String)
    (hp : '/' ∉ cp.data) (hpe : fs.fileExists cp = false)
    (hpx : pyEndsWith (pyLower cp) ".pdf" = true)
    (hi : '/' ∉ ci.data) (hie : fs.fileExists ci = false)
    (hix : pyEndsWithAny (pyLower ci) imageValidExtensions = true)
    (ho : '/' ∉ co.data) (hoe : fs.fileExists co = false)
    (hox : pyEndsWithAny (pyLower co) exts = true) :
    validate_pdf_file fs cp = .error .NotFound ∧
    validate_image_file fs ci = .error .NotFound ∧
    validate_office_file fs co exts ft = .error .NotFound ∧
    validate_pdf_file fs cp ≠ .error .UnsupportedExtension ∧
    validate_image_file fs ci ≠ .error .UnsupportedExtension ∧
    validate_office_file fs co exts ft ≠ .error .UnsupportedExtension := by
  have dp := os_path_dirname_of_no_sep hp
  have di := os_path_dirname_of_no_sep hi
  have dso := os_path_dirname_of_no_sep ho
  refine ⟨?_, ?_, ?_, ?_, ?_, ?_⟩ <;>
    simp [validate_pdf_file, validate_image_file, validate_office_file, dp, di, dso,
      hpe, hie, hoe]

/-- Claim C5 witness: in a directory with no files, the names a.pdf, b.png
and c.docx (accepted suffixes of their categories) all fail with NotFound. -/
theorem C5_missing_file_fails_notfound_witness :
    validate_pdf_file fsNone "a.pdf" = .error .NotFound ∧
    validate_image_file fsNone "b.png" = .error .NotFound ∧
    validate_office_file fsNone "c.docx" [".docx", ".doc"] "Word" = .error .NotFound ∧
    validate_pdf_file fsNone "a.pdf" ≠ .error .UnsupportedExtension ∧
    validate_image_file fsNone "b.png" ≠ .error .UnsupportedExtension ∧
    validate_office_file fsNone "c.docx" [".docx", ".doc"] "Word" ≠
      .error .UnsupportedExtension :=
  C5_missing_file_fails_notfound fsNone "a.pdf" "b.png" "c.docx" [".docx", ".doc"] "Word"
    (by decide) rfl (by decide) (by decide) rfl (by decide) (by decide) rfl (by decide)

/-- Claim C6: every candidate string containing a directory separator is
rejected with the PathNotAllowed error by all three validators, whatever the
expected category and whatever the accepted suffix set. -/
theorem C6_path_separator_always_pathnotallowed (fs : FS) (c : String)
    (exts : List String) (ft : String) (h : '/' ∈ c.data) :
    validate_pdf_file fs c = .error .PathNotAllowed ∧
    validate_image_file fs c = .error .PathNotAllowed ∧
    validate_office_file fs c exts ft = .error .PathNotAllowed := by
  have hdne := os_path_dirname_ne_empty h
  refine ⟨?_, ?_, ?_⟩ <;>
    simp [validate_pdf_file, validate_image_file, validate_office_file, hdne]

/-- Claim C6 witness: the name dir/a.pdf is rejected with PathNotAllowed by
the PDF, image, and Excel validators alike. -/
theorem C6_path_separator_always_pathnotallowed_witness :
    validate_pdf_file fsAll "dir/a.pdf" = .error .PathNotAllowed ∧
    validate_image_file fsAll "dir/a.pdf" = .error .PathNotAllowed ∧
    validate_office_file fsAll "dir/a.pdf" [".xlsx", ".xls"] "Excel" =
      .error .PathNotAllowed :=
  C6_path_separator_always_pathnotallowed fsAll "dir/a.pdf" [".xlsx", ".xls"] "Excel"
    (by decide)

theorem get_output_filename_find (default_name : String) (lines : List String) :
    get_output_filename default_name lines =
      (lines.map (fun l => ensure_pdf_suffixed (entered_output_name default_name l))).find?
        (fun m => os_path_dirname m == "") := by
  induction lines with
  | nil => rfl
  | cons line rest ih =>
    simp only [get_output_filename, List.map_cons, entered_output_name]
    by_cases hd : os_path_dirname
        (ensure_pdf_suffixed (if pyStrip line = "" then default_name else pyStrip line)) = ""
    · rw [if_neg (by simp [hd])]
      rw [List.find?_cons_of_pos _ (by simp [hd])]
    · rw [if_pos hd]
      rw [List.find?_cons_of_neg _ (by simp [hd])]
      exact ih

/-- Claim C7: the output-filename routine returns exactly the processed form
of the first entered name it accepts - the suffixing step applied to the
stripped, default-substituted line, with names carrying a path component
skipped - and that suffixing step returns a name already ending in .pdf in
any letter case unchanged, appends .pdf exactly once to any other name, and
is idempotent, so an accepted name is never double-suffixed. -/
theorem C7_output_name_pdf_suffixed_once (default_name : String) (lines : List String) :
    get_output_filename default_name lines =
      (lines.map (fun l => ensure_pdf_suffixed (entered_output_name default_name l))).find?
        (fun m => os_path_dirname m == "") ∧
    (∀ n, pyEndsWith (pyLower n) ".pdf" = true → ensure_pdf_suffixed n = n) ∧
    (∀ n, pyEndsWith (pyLower n) ".pdf" = false → ensure_pdf_suffixed n = n ++ ".pdf") ∧
    (∀ n, ensure_pdf_suffixed (ensure_pdf_suffixed n) = ensure_pdf_suffixed n) := by
  refine ⟨get_output_filename_find default_name lines, ?_, ?_,
    fun n => ensure_pdf_suffixed_idem n⟩
  · intro n hw
    simp [ensure_pdf_suffixed, hw]
  · intro n hw
    simp [ensure_pdf_suffixed, hw]

/-- Claim C7 witness: on the concrete input x the routine accepts x.pdf, the
processed form of the entered name; the suffixing step appends .pdf exactly
once to the entered name x, returns the already suffixed y.PDF unchanged,
and re-suffixing the accepted x.pdf changes nothing. -/
theorem C7_output_name_pdf_suffixed_once_witness :
    get_output_filename "merged.pdf" ["x"] =
      ((["x"].map (fun l => ensure_pdf_suffixed (entered_output_name "merged.pdf" l))).find?
        (fun m => os_path_dirname m == "")) ∧
    ensure_pdf_suffixed "x" = "x" ++ ".pdf" ∧
    ensure_pdf_suffixed "y.PDF" = "y.PDF" ∧
    ensure_pdf_suffixed (ensure_pdf_suffixed "x") = ensure_pdf_suffixed "x" :=
  ⟨(C7_output_name_pdf_suffixed_once "merged.pdf" ["x"]).1,
   (C7_output_name_pdf_suffixed_once "merged.pdf" ["x"]).2.2.1 "x" (by decide),
   (C7_output_name_pdf_suffixed_once "merged.pdf" ["x"]).2.1 "y.PDF" (by decide),
   (C7_output_name_pdf_suffixed_once "merged.pdf" ["x"]).2.2.2 "x"⟩

/-- Claim C4 counterexample: the quit sentinel of the collection loop is the
letter q, not the word quit.  The line quit, which case-insensitively equals
the claimed sentinel, does not stop the loop - it is validated as a filename
and the loop keeps reading - while the line Q, which does not equal quit,
does stop it with the empty accumulated list. -/
theorem C4_sentinel_is_q_not_quit_counterexample :
    pyLower (pyStrip "quit") = "quit" ∧
    get_file_names fsNone ["quit"] = none ∧
    ¬ pyLower (pyStrip "Q") = "quit" ∧
    get_file_names fsNone ["Q"] = some [] := by decide

/-- Claim C4 (amended): the collection loop stops and returns the accumulated
list (possibly empty) exactly when a stripped input line case-insensitively
equals the sentinel q; any other line is validated and either appended on
success or rejected on failure without ending the loop, so the returned list
is exactly the stripped entries before the first sentinel line that pass
validation. -/
theorem C4_collector_stops_exactly_at_q (fs : FS) (lines : List String) :
    ((get_file_names fs lines).isSome = true ↔ ∃ l ∈ lines, pyLower (pyStrip l) = "q") ∧
    ∀ res, get_file_names fs lines = some res →
      res = ((lines.takeWhile (fun l => !(pyLower (pyStrip l) == "q"))).map pyStrip).filter
              (fun f => exceptOk (validate_pdf_file fs f)) :=
  ⟨collect_loop_isSome (validate_pdf_file fs) lines,
   fun res h => collect_loop_some_eq (validate_pdf_file fs) lines res h⟩

/-- Claim C4 witness: with terminal input x.pdf then q, in a directory where
every name is a valid PDF, the loop stops at q and the returned list is
exactly the accepted entry read before the sentinel. -/
theorem C4_collector_stops_exactly_at_q_witness :
    ["x.pdf"] = (((["x.pdf", "q"].takeWhile
        (fun l => !(pyLower (pyStrip l) == "q"))).map pyStrip).filter
        (fun f => exceptOk (validate_pdf_file fsAll f))) :=
  (C4_collector_stops_exactly_at_q fsAll ["x.pdf", "q"]).2 ["x.pdf"] (by decide)

/-- Claim C10: no list returned by any of the three collectors (PDF, image,
office) contains an entry that case-insensitively equals q: such an input
always ends the loop before validation, so a file literally named q or Q can
never be selected as an input item. -/
theorem C10_collectors_never_return_q (fs : FS) (lines : List String)
    (extensions : List String) (file_type : String) :
    (∀ res, get_file_names fs lines = some res → ∀ e ∈ res, ¬ pyLower e = "q") ∧
    (∀ res, get_image_files fs lines = some res → ∀ e ∈ res, ¬ pyLower e = "q") ∧
    (∀ res, get_office_files fs extensions file_type lines = some res →
      ∀ e ∈ res, ¬ pyLower e = "q") :=
  ⟨fun res h => collect_loop_no_q _ lines res h,
   fun res h => collect_loop_no_q _ lines res h,
   fun res h => collect_loop_no_q _ lines res h⟩

/-- Claim C10 witness: the PDF collector run on the input a.pdf then q
returns the list holding a.pdf, and that entry does not lower to q. -/
theorem C10_collectors_never_return_q_witness : ¬ pyLower "a.pdf" = "q" :=
  (C10_collectors_never_return_q fsAll ["a.pdf", "q"] [] "").1 ["a.pdf"] (by decide)
    "a.pdf" (by decide)

/-- Claim C2 counterexample: in a merge run whose final write raises after
the output file was opened, the driver reports the critical error, yet the
partially written output file still exists afterwards - merge_pdfs contains
no removal of the output file on any path. -/
theorem C2_partial_output_remains_counterexample :
    (merge_pdfs fsMergeWriteFail ["a.pdf"] false).criticalError = true ∧
    (merge_pdfs fsMergeWriteFail ["a.pdf"] false).outputExists = true := by decide

/-- Claim C2 (amended): when the final write of the merged document raises
after the open created the output file, the PDF merge driver reports a
critical error, claims no success, and releases the merge structure, but it
deletes nothing: the partial output file named by the output filename remains
on disk when the driver returns. -/
theorem C2_merge_write_failure_keeps_partial_output (fs : PdfFS)
    (file_paths : List String) (preOut : Bool)
    (h : fs.writeOutcome = WriteOutcome.writeFail) :
    (merge_pdfs fs file_paths preOut).criticalError = true ∧
    (merge_pdfs fs file_paths preOut).reported = false ∧
    (merge_pdfs fs file_paths preOut).outputExists = true ∧
    (merge_pdfs fs file_paths preOut).mergerClosed = true := by
  simp [merge_pdfs, h]

/-- Claim C2 witness: the amended behavior at a concrete one-file merge whose
final write raises. -/
theorem C2_merge_write_failure_keeps_partial_output_witness :
    (merge_pdfs fsMergeWriteFail ["b.pdf"] false).criticalError = true ∧
    (merge_pdfs fsMergeWriteFail ["b.pdf"] false).reported = false ∧
    (merge_pdfs fsMergeWriteFail ["b.pdf"] false).outputExists = true ∧
    (merge_pdfs fsMergeWriteFail ["b.pdf"] false).mergerClosed = true :=
  C2_merge_write_failure_keeps_partial_output fsMergeWriteFail ["b.pdf"] false rfl

/-- Claim C3: in a merge run whose final write succeeds, each per-file append
failure is counted while the remaining files are still processed: the failure
count is the number of inputs whose append raised, the reported succeeded
count is the length of the original input list minus that number, and the
written output consists of the pages of the successfully appended files in
input order. -/
theorem C3_merge_report_counts (fs : PdfFS) (file_paths : List String) (preOut : Bool)
    (h : fs.writeOutcome = WriteOutcome.ok) :
    (merge_pdfs fs file_paths preOut).failed =
      (file_paths.filter (fun p => (fs.appendPdf p).isNone)).length ∧
    (merge_pdfs fs file_paths preOut).succeeded =
      file_paths.length - (file_paths.filter (fun p => (fs.appendPdf p).isNone)).length ∧
    (merge_pdfs fs file_paths preOut).outputPages =
      (file_paths.filterMap fs.appendPdf).flatten ∧
    (merge_pdfs fs file_paths preOut).reported = true := by
  simp [merge_pdfs, h, merge_loop_eq]

/-- Claim C3 witness: merging a.pdf (well-formed, two pages) with b.pdf
(corrupt, append raises) gives the stats one succeeded, one failed, and an
output holding only the pages of a.pdf. -/
theorem C3_merge_report_counts_witness :
    (merge_pdfs fsMergeOneCorrupt ["a.pdf", "b.pdf"] false).failed =
      ((["a.pdf", "b.pdf"]).filter (fun p => (fsMergeOneCorrupt.appendPdf p).isNone)).length ∧
    (merge_pdfs fsMergeOneCorrupt ["a.pdf", "b.pdf"] false).succeeded =
      (["a.pdf", "b.pdf"]).length -
        ((["a.pdf", "b.pdf"]).filter (fun p => (fsMergeOneCorrupt.appendPdf p).isNone)).length ∧
    (merge_pdfs fsMergeOneCorrupt ["a.pdf", "b.pdf"] false).outputPages =
      ((["a.pdf", "b.pdf"]).filterMap fsMergeOneCorrupt.appendPdf).flatten ∧
    (merge_pdfs fsMergeOneCorrupt ["a.pdf", "b.pdf"] false).reported = true :=
  C3_merge_report_counts fsMergeOneCorrupt ["a.pdf", "b.pdf"] false rfl

/-- Claim C8: whenever a blog-to-PDF run fails at the fetch, status check,
extraction, or render stage, the driver reports the error, claims no
success, and no file exists at the output filename when it returns: the
exception handler removes the output file when one exists at that moment. -/
theorem C8_blog_failure_leaves_no_output (preOut : Bool) (stage : BlogStage)
    (h : stage ≠ BlogStage.success) :
    (convert_blog preOut stage).reportedError = true ∧
    (convert_blog preOut stage).reportedSuccess = false ∧
    (convert_blog preOut stage).outputExists = false := by
  cases stage with
  | success => exact absurd rfl h
  | fetchError => cases preOut <;> simp [convert_blog]
  | badStatus => cases preOut <;> simp [convert_blog]
  | extractError => cases preOut <;> simp [convert_blog]
  | renderError fileStarted => cases preOut <;> cases fileStarted <;> simp [convert_blog]

/-- Claim C8 witness: a fetch answered with a non-2xx status (such as an
HTTP 404), run while a file already existed at the output name, reports the
error and leaves no file at the output name. -/
theorem C8_blog_failure_leaves_no_output_witness :
    (convert_blog true BlogStage.badStatus).reportedError = true ∧
    (convert_blog true BlogStage.badStatus).reportedSuccess = false ∧
    (convert_blog true BlogStage.badStatus).outputExists = false :=
  C8_blog_failure_leaves_no_output true BlogStage.badStatus (by decide)

/-- Claim C9 counterexample: an image that opens in the LA mode - a PIL mode
that carries an alpha channel - is passed to the multi-page save step
unconverted: the driver converts only the RGBA mode, so an image with
per-pixel transparency does reach the save step. -/
theorem C9_alpha_mode_reaches_save_counterexample :
    hasAlphaMode "LA" = true ∧
    image_mode_after_processing "LA" = "LA" ∧
    (convert_images_to_pdf fsImageLA ["a.png"] false).savedModes = ["LA"] ∧
    hasAlphaMode ((convert_images_to_pdf fsImageLA ["a.png"] false).savedModes.headD "") =
      true := by decide

/-- Claim C9 (amended): every image that opens in the RGBA mode is converted
to RGB before being used, so no image in the RGBA mode is ever passed to the
multi-page save step; every mode passed to the save step arises from an
opened image through that single conversion, and images in the other
alpha-carrying modes (LA, PA, RGBa, La) pass through unchanged. -/
theorem C9_only_rgba_converted (fs : ImageFS) (image_paths : List String) (preOut : Bool) :
    ∀ m ∈ (convert_images_to_pdf fs image_paths preOut).savedModes,
      m ≠ "RGBA" ∧ ∃ p ∈ image_paths, ∃ m0, fs.openMode p = some m0 ∧
        m = image_mode_after_processing m0 := by
  intro m hm
  have hmem : m ∈ image_paths.filterMap
      (fun p => (fs.openMode p).map image_mode_after_processing) := by
    simp only [convert_images_to_pdf] at hm
    by_cases h1 : (image_paths.filterMap
        (fun p => (fs.openMode p).map image_mode_after_processing)).isEmpty = true
    · rw [if_pos h1] at hm
      simp at hm
    · rw [if_neg h1] at hm
      by_cases h2 : fs.saveOk = true
      · rw [if_pos h2] at hm
        exact hm
      · rw [if_neg h2] at hm
        exact hm
  obtain ⟨p, hp, hf⟩ := List.mem_filterMap.mp hmem
  obtain ⟨m0, hm0, he⟩ := Option.map_eq_some'.mp hf
  constructor
  · rw [← he]
    unfold image_mode_after_processing
    split
    · decide
    · assumption
  · exact ⟨p, hp, m0, hm0, he.symm⟩

/-- Claim C9 witness: an image opened in the RGBA mode reaches the save step
as RGB, arising from the opened mode through the conversion. -/
theorem C9_only_rgba_converted_witness :
    "RGB" ≠ "RGBA" ∧ ∃ p ∈ ["a.png"], ∃ m0, fsImageRGBA.openMode p = some m0 ∧
      "RGB" = image_mode_after_processing m0 :=
  C9_only_rgba_converted fsImageRGBA ["a.png"] false "RGB" (by decide)

/-- Claim C1: evaluation of the office driver at the failing input.  With a
non-empty validated input list of one file whose conversion fails, the merge
structure holds zero pages and the driver takes the abort path, returning
with the temporary directory created but its cleanup call never executed
(and the merger never closed): the cleanup sits in a finally block that this
early return does not reach.  By contrast, on the write path - three files
of which exactly one fails to convert - the cleanup does run and the stats
are two succeeded, one failed, as the spec example states. -/
theorem C1_office_tempdir_not_cleaned_on_zero_pages_abort :
    (handle_office_conversion fsOfficeAllFail ["a.docx"] "tmp" false).abortedNoPages = true ∧
    (handle_office_conversion fsOfficeAllFail ["a.docx"] "tmp" false).tempDirCreated = true ∧
    (handle_office_conversion fsOfficeAllFail ["a.docx"] "tmp" false).tempDirCleaned = false ∧
    (handle_office_conversion fsOfficeAllFail ["a.docx"] "tmp" false).mergerClosed = false ∧
    (handle_office_conversion fsOfficeOneFail ["a.docx", "b.docx", "c.docx"] "tmp"
      false).tempDirCleaned = true ∧
    (handle_office_conversion fsOfficeOneFail ["a.docx", "b.docx", "c.docx"] "tmp"
      false).mergerClosed = true ∧
    (handle_office_conversion fsOfficeOneFail ["a.docx", "b.docx", "c.docx"] "tmp"
      false).succeeded = 2 ∧
    (handle_office_conversion fsOfficeOneFail ["a.docx", "b.docx", "c.docx"] "tmp"
      false).failed = 1 := by decide
